import Mathlib

/-!
Verification of the document-ingestion pipeline (crawler, storage, nlp,
utils, main modules) against its natural-language specification.

The Python source is shallowly embedded: pure helpers become Lean
functions; file-system and network effects become explicit state passing
with boolean success oracles where the source handles failures; external
collaborators (HTTP fetch, text conversion, language detection, the
sentence-embedding model, the summarizer) are parameters of the embedded
functions, matching the narrow functional contracts the spec gives them.
Machine integers are modelled as Nat with explicit reduction mod 2 ^ 32
where the MD5 fingerprint needs 32-bit arithmetic.
-/

/- ===================== utils.gerar_nome_arquivo_hash =====================
   The source computes hashlib.md5(url.encode()).hexdigest().  We embed the
   full MD5 algorithm over byte lists (bytes are Nat below 256, 32-bit
   words are Nat reduced mod 2 ^ 32). -/

/-- Per-round left-rotation amounts of MD5. -/
def md5_s : List Nat :=
  [7, 12, 17, 22, 7, 12, 17, 22, 7, 12, 17, 22, 7, 12, 17, 22,
   5, 9, 14, 20, 5, 9, 14, 20, 5, 9, 14, 20, 5, 9, 14, 20,
   4, 11, 16, 23, 4, 11, 16, 23, 4, 11, 16, 23, 4, 11, 16, 23,
   6, 10, 15, 21, 6, 10, 15, 21, 6, 10, 15, 21, 6, 10, 15, 21]

/-- Per-round additive constants of MD5 (floor of 2 ^ 32 * abs (sin (i + 1))). -/
def md5_K : List Nat :=
  [0xd76aa478, 0xe8c7b756, 0x242070db, 0xc1bdceee,
   0xf57c0faf, 0x4787c62a, 0xa8304613, 0xfd469501,
   0x698098d8, 0x8b44f7af, 0xffff5bb1, 0x895cd7be,
   0x6b901122, 0xfd987193, 0xa679438e, 0x49b40821,
   0xf61e2562, 0xc040b340, 0x265e5a51, 0xe9b6c7aa,
   0xd62f105d, 0x02441453, 0xd8a1e681, 0xe7d3fbc8,
   0x21e1cde6, 0xc33707d6, 0xf4d50d87, 0x455a14ed,
   0xa9e3e905, 0xfcefa3f8, 0x676f02d9, 0x8d2a4c8a,
   0xfffa3942, 0x8771f681, 0x6d9d6122, 0xfde5380c,
   0xa4beea44, 0x4bdecfa9, 0xf6bb4b60, 0xbebfbc70,
   0x289b7ec6, 0xeaa127fa, 0xd4ef3085, 0x04881d05,
   0xd9d4d039, 0xe6db99e5, 0x1fa27cf8, 0xc4ac5665,
   0xf4292244, 0x432aff97, 0xab9423a7, 0xfc93a039,
   0x655b59c3, 0x8f0ccc92, 0xffeff47d, 0x85845dd1,
   0x6fa87e4f, 0xfe2ce6e0, 0xa3014314, 0x4e0811a1,
   0xf7537e82, 0xbd3af235, 0x2ad7d2bb, 0xeb86d391]

/-- 32-bit left rotation on Nat values below 2 ^ 32. -/
def rotl32 (x s : Nat) : Nat :=
  (((x <<< s) % 4294967296) ||| (x >>> (32 - s)))

/-- Bitwise complement on 32 bits. -/
def not32 (x : Nat) : Nat := x ^^^ 0xFFFFFFFF

/-- The round-dependent nonlinear function of MD5. -/
def md5F (i b c d : Nat) : Nat :=
  if i < 16 then (b &&& c) ||| (not32 b &&& d)
  else if i < 32 then (d &&& b) ||| (not32 d &&& c)
  else if i < 48 then b ^^^ c ^^^ d
  else c ^^^ (b ||| not32 d)

/-- The round-dependent message-word index of MD5. -/
def md5G (i : Nat) : Nat :=
  if i < 16 then i
  else if i < 32 then (5 * i + 1) % 16
  else if i < 48 then (3 * i + 5) % 16
  else (7 * i) % 16

/-- One of the 64 MD5 operations on the running state (a, b, c, d). -/
def md5Round (M : List Nat) (st : Nat × Nat × Nat × Nat) (i : Nat) :
    Nat × Nat × Nat × Nat :=
  let (a, b, c, d) := st
  let f := (md5F i b c d + a + md5_K.getD i 0 + M.getD (md5G i) 0) % 4294967296
  let b2 := (b + rotl32 f (md5_s.getD i 0)) % 4294967296
  (d, b2, b, c)

/-- Group a byte list into little-endian 32-bit words. -/
def leWords : List Nat → List Nat
  | b0 :: b1 :: b2 :: b3 :: rest =>
      (b0 + 256 * b1 + 65536 * b2 + 16777216 * b3) :: leWords rest
  | _ => []

/-- Absorb one 64-byte block into the MD5 state. -/
def md5ProcessBlock (st : Nat × Nat × Nat × Nat) (block : List Nat) :
    Nat × Nat × Nat × Nat :=
  let M := leWords block
  let r := (List.range 64).foldl (md5Round M) st
  let (a0, b0, c0, d0) := st
  let (a, b, c, d) := r
  ((a0 + a) % 4294967296, (b0 + b) % 4294967296,
   (c0 + c) % 4294967296, (d0 + d) % 4294967296)

/-- Little-endian 4-byte expansion of a 32-bit word. -/
def leBytes4 (n : Nat) : List Nat :=
  [n % 256, n / 256 % 256, n / 65536 % 256, n / 16777216 % 256]

/-- Little-endian 8-byte expansion of a 64-bit length field. -/
def leBytes8 (n : Nat) : List Nat :=
  [n % 256, n / 256 % 256, n / 65536 % 256, n / 16777216 % 256,
   n / 4294967296 % 256, n / 1099511627776 % 256,
   n / 281474976710656 % 256, n / 72057594037927936 % 256]

/-- MD5 padding: a 0x80 byte, zeros to 56 mod 64, then the bit length. -/
def md5Pad (msg : List Nat) : List Nat :=
  let padLen := (119 - (msg.length % 64)) % 64
  msg ++ [0x80] ++ List.replicate padLen 0 ++ leBytes8 ((msg.length * 8) % 18446744073709551616)

/-- Split a byte list into 64-byte chunks. -/
def chunks64 (l : List Nat) : List (List Nat) :=
  if h : l = [] then []
  else l.take 64 :: chunks64 (l.drop 64)
termination_by l.length
decreasing_by
  simp only [List.length_drop]
  have : 0 < l.length := List.length_pos.mpr h
  omega

/-- The 16-byte MD5 digest of a byte string. -/
def md5DigestBytes (msg : List Nat) : List Nat :=
  let r := (chunks64 (md5Pad msg)).foldl md5ProcessBlock
    (0x67452301, 0xefcdab89, 0x98badcfe, 0x10325476)
  let (a, b, c, d) := r
  leBytes4 a ++ leBytes4 b ++ leBytes4 c ++ leBytes4 d

/-- Lower-case hexadecimal digit characters. -/
def hexChars : List Char := "0123456789abcdef".toList

/-- Two hex characters for one byte. -/
def byteToHexChars (b : Nat) : List Char :=
  [hexChars.getD (b / 16 % 16) '0', hexChars.getD (b % 16) '0']

/-- Hexadecimal string of a byte list, as Python hexdigest renders it. -/
def hexdigest (bs : List Nat) : String :=
  String.mk (bs.flatMap byteToHexChars)

/-- The UTF-8 bytes of a string, as Python str.encode produces them. -/
def utf8Bytes (s : String) : List Nat :=
  s.toUTF8.toList.map UInt8.toNat

/-- Embeds utils.gerar_nome_arquivo_hash: the MD5 hex digest of the
UTF-8 encoding of the url. -/
def gerar_nome_arquivo_hash (url : String) : String :=
  hexdigest (md5DigestBytes (utf8Bytes url))

/- ===================== config.Config ===================== -/

namespace Config

/-- Embeds Config.LANGUAGES, the languages of interest. -/
def LANGUAGES : List String := ["pt", "en", "la", "it", "es", "fr"]

end Config

/- ===================== generic helpers ===================== -/

/-- Python string slicing s[:n] counts code points, as List.take on the
character list does. -/
def pySlice (s : String) (n : Nat) : String :=
  String.mk (s.toList.take n)

/-- Python str.strip with no argument: drop whitespace from both ends. -/
def pyStrip (s : String) : String :=
  String.mk
    (((s.toList.dropWhile Char.isWhitespace).reverse.dropWhile
      Char.isWhitespace).reverse)

/-- Python set.add on a membership-only model of a set of strings. -/
def insertSet (x : String) (l : List String) : List String :=
  if x ∈ l then l else x :: l

/- ===================== utils JSON layer and checkpoint file ===============
   carregar_json / salvar_json read and write one JSON file.  The file is
   modelled as being absent, unreadable (an I/O error or unparseable
   JSON), or holding a parsed JSON object (a key-value association list).
   A boolean oracle on the write models the IOError / TypeError branch of
   salvar_json, which the source catches and turns into a False return. -/

/-- A JSON value as far as the checkpoint format needs: strings, numbers
and arrays. -/
inductive JValue where
  | str (s : String)
  | num (n : Nat)
  | arr (xs : List JValue)

/-- The state of the checkpoint file on disk. -/
inductive CPFile where
  | absent
  | corrupt
  | content (dados : List (String × JValue))

/-- Embeds utils.carregar_json: an absent file gives an empty dict, and a
read or parse failure is caught and also gives an empty dict. -/
def carregar_json : CPFile → List (String × JValue)
  | .absent => []
  | .corrupt => []
  | .content dados => dados

/-- Embeds utils.salvar_json: on success the file now holds the data and
True is returned; a caught IOError or TypeError leaves the file as it was
and returns False. -/
def salvar_json (ok : Bool) (fs : CPFile) (dados : List (String × JValue)) :
    Bool × CPFile :=
  if ok then (true, .content dados) else (false, fs)

/-- Python dict.get with a default. -/
def dictGet (dados : List (String × JValue)) (key : String) (dflt : JValue) :
    JValue :=
  match dados.lookup key with
  | some v => v
  | none => dflt

/-- The string elements of a JSON array value. -/
def jsonStrings : JValue → List String
  | .arr xs => xs.filterMap fun v => match v with | .str s => some s | _ => none
  | _ => []

/- ===================== storage.CheckpointManager ===================== -/

/-- The in-memory state of storage.CheckpointManager: the set of already
processed urls, modelled by membership in a list. -/
structure CheckpointManager where
  processed_urls : List String

/-- Embeds CheckpointManager._carregar_checkpoint: read the JSON file and
take the set under the key urls_processadas, defaulting to the empty
list. -/
def carregar_checkpoint (fs : CPFile) : List String :=
  jsonStrings (dictGet (carregar_json fs) "urls_processadas" (.arr []))

/-- Embeds CheckpointManager.__init__: load the durable set into memory. -/
def CheckpointManager.init (fs : CPFile) : CheckpointManager :=
  ⟨carregar_checkpoint fs⟩

/-- Embeds CheckpointManager.salvar_checkpoint: write a full snapshot
(timestamp, count, url list) through salvar_json. -/
def salvar_checkpoint (ok : Bool) (cm : CheckpointManager) (fs : CPFile)
    (ts : String) : Bool × CPFile :=
  salvar_json ok fs
    [("ultima_atualizacao", .str ts),
     ("total_documentos", .num cm.processed_urls.length),
     ("urls_processadas", .arr (cm.processed_urls.map .str))]

/-- Embeds CheckpointManager.adicionar_url_processada: add to the
in-memory set, then persist the whole snapshot. -/
def adicionar_url_processada (ok : Bool) (cm : CheckpointManager)
    (fs : CPFile) (url ts : String) : CheckpointManager × CPFile :=
  let cm2 : CheckpointManager := ⟨insertSet url cm.processed_urls⟩
  let r := salvar_checkpoint ok cm2 fs ts
  (cm2, r.2)

/-- Embeds CheckpointManager.url_ja_processada: membership in the
in-memory set. -/
def url_ja_processada (cm : CheckpointManager) (url : String) : Bool :=
  url ∈ cm.processed_urls

/- ===================== storage.DocumentQueue =====================
   The queue lives in a Redis sorted set keyed by url with an integer
   score.  The sorted set is modelled as an association list with unique
   members; zadd and zpopmax are embedded with the documented Redis
   semantics (zadd counts newly added members, zpopmax removes the entry
   that is greatest by score and then by member string). -/

/-- Redis zadd on the modelled sorted set: update the score of an
existing member (counting 0 new members) or append a new one (counting
1). -/
def zadd (q : List (String × Int)) (url : String) (score : Int) :
    Nat × List (String × Int) :=
  if q.any (fun p => p.1 = url) then
    (0, q.map fun p => if p.1 = url then (url, score) else p)
  else
    (1, q ++ [(url, score)])

/-- The ordering Redis uses to pick the zpopmax entry: by score, ties by
member string. -/
def zBelow (p e : String × Int) : Prop :=
  p.2 < e.2 ∨ (p.2 = e.2 ∧ p.1 < e.1)

instance : DecidableRel zBelow := fun p e => by
  unfold zBelow; infer_instance

/-- The entry Redis zpopmax would pop: the greatest by score, then by
member string. -/
def zmaxEntry (q : List (String × Int)) : Option (String × Int) :=
  match q with
  | [] => none
  | e :: es => some (es.foldl (fun best p => if zBelow best p then p else best) e)

/-- Embeds DocumentQueue.adicionar_documento: zadd, returning whether the
url was newly inserted, together with the new queue state. -/
def adicionar_documento (q : List (String × Int)) (url : String)
    (prioridade : Int) : Bool × List (String × Int) :=
  let r := zadd q url prioridade
  (r.1 == 1, r.2)

/-- Embeds DocumentQueue.obter_proximo_documento: zpopmax, returning the
url of the popped entry (or none on an empty queue) with the new queue
state. -/
def obter_proximo_documento (q : List (String × Int)) :
    Option String × List (String × Int) :=
  match zmaxEntry q with
  | none => (none, q)
  | some e => (some e.1, q.erase e)

/- ===================== nlp ===================== -/

/-- Embeds nlp.detectar_idioma: run langdetect (an external collaborator,
here an oracle that either yields a code or raises) on the first 500
characters; a detected language outside Config.LANGUAGES, or a raised
LangDetectException, gives the literal "desconhecido". -/
def detectar_idioma (detect : String → Except Unit String) (texto : String) :
    String :=
  match detect (pySlice texto 500) with
  | .ok lang => if lang ∈ Config.LANGUAGES then lang else "desconhecido"
  | .error _ => "desconhecido"

/-- Embeds nlp.gerar_resumo: the TextRank summarizer (external
collaborator, here an oracle covering the model call and its
exception-to-empty fallback) applied to the first million characters. -/
def gerar_resumo (resumoF : String → String) (texto : String) : String :=
  resumoF (pySlice texto 1000000)

/-- Embeds nlp.extrair_referencias_biblicas: the stub always returns the
empty list. -/
def extrair_referencias_biblicas (_texto : String) : List String := []

/-- Embeds SemanticSearch.criar_e_salvar_embedding: encode the text and
save the vector under the document id; any exception in encoding or
saving is caught and leaves the store unchanged (embedOk models whether
the try block ran to completion). -/
def criar_e_salvar_embedding (embedOk : Bool) (encode : String → List ℚ)
    (store : List (String × List ℚ)) (doc_id texto : String) :
    List (String × List ℚ) :=
  if embedOk then (doc_id, encode texto) :: store else store

/-- The similarity-scored entries buscar builds: one (doc_id, score) per
on-disk vector file, in directory-listing order. -/
def scoresOf (cos_sim : List ℚ → List ℚ → ℚ) (queryEmb : List ℚ)
    (files : List (String × List ℚ)) : List (String × ℚ) :=
  files.map fun p => (p.1, cos_sim queryEmb p.2)

/-- Descending-by-score comparison used to sort the scored entries. -/
def descBy (a b : String × ℚ) : Prop := b.2 ≤ a.2

instance : DecidableRel descBy := fun a b => by
  unfold descBy; infer_instance

instance : IsTotal (String × ℚ) descBy :=
  ⟨fun a b => le_total b.2 a.2⟩

instance : IsTrans (String × ℚ) descBy :=
  ⟨fun _ _ _ hab hbc => le_trans hbc hab⟩

/-- Embeds SemanticSearch.buscar: encode the query, score every stored
vector entry by the cosine-similarity collaborator, sort by descending
score (Python sorted with reverse=True is a stable sort, as
List.insertionSort with this relation is) and keep the first top_k;
an empty on-disk entry set returns the empty list at once. -/
def buscar (encode : String → List ℚ) (cos_sim : List ℚ → List ℚ → ℚ)
    (files : List (String × List ℚ)) (query : String) (top_k : Nat) :
    List (String × ℚ) :=
  let query_embedding := encode query
  if files.isEmpty then []
  else ((scoresOf cos_sim query_embedding files).insertionSort descBy).take top_k

/- ===================== crawler.processar_documento =====================
   The per-document pipeline.  The external fetch and convert
   collaborators are the fields of Env; the four artifact stores, each an
   association list from a file key, plus the in-memory checkpoint set
   form Stores.  A raised exception inside processar_documento is an
   error result carrying the stores as they were at the raise.

   The source text after the quality gate assembles a metadata dict,
   persists metadata JSON, extracted text, raw bytes and the embedding,
   and then marks the checkpoint — but that region is unreachable in the
   code as written: the metadata dict literal reads the global name
   datetime (and later nlp), which the module never binds, so every run
   that passes the quality gate raises NameError at the dict before any
   persist step.  The embedding reflects this: the post-gate path raises
   with the stores untouched. -/

/-- Does url.lower() end with the given lower-case suffix. -/
def lowerEndsWith (url suffix : String) : Bool :=
  suffix.toList.isSuffixOf (url.toList.map Char.toLower)

/-- The metadata dictionary the source text of processar_documento would
assemble.  No instance is ever constructed by the code as written:
evaluating the data_coleta field raises NameError on the unbound name
datetime.  The shape is kept because the metadata artifact store is
typed by it. -/
structure Metadados where
  id : String
  doc_hash : String
  url : String
  formato : String
  data_coleta : String
  tamanho_bytes_texto : Nat
  idioma : String
  resumo : String
  referencias_biblicas : List String

/-- The external collaborators one processar_documento run consumes on
its reachable paths. -/
structure Env where
  /-- Outcome of _baixar_documento: the fetched bytes, or none on a
  request failure or an oversize payload. -/
  baixar : String → Option (List Nat)
  /-- Outcome of _converter_conteudo_para_texto: the extracted text, with
  the empty string on a conversion failure or an oversize PDF. -/
  converter : List Nat → String → String

/-- The artifact stores and the in-memory checkpoint set. -/
structure Stores where
  metadata : List (String × Metadados)
  txt : List (String × String)
  raw : List (String × List Nat)
  emb : List (String × List ℚ)
  checkpoint : List String

/-- Embeds crawler.processar_documento as written: skip already
processed urls, download, check for empty content, convert, apply the
minimum-length quality gate; a run that passes the gate computes
doc_hash, doc_id and formato (pure locals without effects) and then
evaluates the metadata dict, whose data_coleta field reads the unbound
global name datetime — NameError is raised there, before salvar_json,
the text and raw writes, the embedding save and the checkpoint mark, so
the error result carries the stores unchanged. -/
def processar_documento (env : Env) (st : Stores) (url : String) :
    Except Stores (Option String × Stores) :=
  if url ∈ st.checkpoint then .ok (none, st)
  else
    match env.baixar url with
    | none => .ok (none, st)
    | some conteudo_bruto =>
      if conteudo_bruto.isEmpty then .ok (none, st)
      else
        let texto_extraido := env.converter conteudo_bruto url
        if texto_extraido = "" ∨ texto_extraido.length < 100 then .ok (none, st)
        else .error st

/-- The stores a processar_documento run leaves behind, whether it
returned or raised. -/
def runStores (r : Except Stores (Option String × Stores)) : Stores :=
  match r with
  | .ok p => p.2
  | .error s => s

/-- The value a processar_documento run returned (none also when it
raised). -/
def runResult (r : Except Stores (Option String × Stores)) : Option String :=
  match r with
  | .ok p => p.1
  | .error _ => none

/- ===================== crawler module name resolution ===================
   The import statements and module-level definitions of crawler.py bind
   these names; the two pipeline functions also reference the free names
   listed below.  Python resolves a free name against the module globals
   and the builtins, and raises NameError otherwise. -/

/-- Every name the import statements and top-level statements of
crawler.py bind in the module namespace. -/
def crawlerModuleBindings : List String :=
  ["os", "uuid", "hashlib", "logging", "requests", "pdfplumber",
   "html2text", "tempfile", "ThreadPoolExecutor", "as_completed",
   "HTTPAdapter", "Retry", "Config", "utils", "SemanticSearch",
   "CheckpointManager", "logger", "_criar_sessao_http",
   "_baixar_documento", "_converter_conteudo_para_texto",
   "processar_documento", "iniciar_coleta_em_lote"]

/-- The Python builtins the two pipeline functions touch. -/
def pythonBuiltinsUsed : List String := ["str", "len", "open"]

/-- The free (non-local) names the body of crawler.processar_documento
references. -/
def processarDocumentoGlobalRefs : List String :=
  ["logger", "_baixar_documento", "_converter_conteudo_para_texto",
   "len", "utils", "str", "uuid", "datetime", "nlp", "os", "Config",
   "open"]

/-- The free (non-local) names the body of crawler.iniciar_coleta_em_lote
references. -/
def iniciarColetaGlobalRefs : List String :=
  ["logger", "len", "utils", "CheckpointManager", "nlp",
   "SemanticSearch", "_criar_sessao_http", "ThreadPoolExecutor",
   "Config", "processar_documento", "as_completed"]

/-- The free names of a function body that resolve neither in the module
namespace nor in the builtins: referencing one raises NameError. -/
def unresolvedNames (refs : List String) : List String :=
  refs.filter fun n =>
    !(crawlerModuleBindings.contains n || pythonBuiltinsUsed.contains n)

/- ===================== utils.is_valid_url and main seed loading ========
   is_valid_url parses the url with urllib.parse.urlparse and checks that
   scheme and netloc are nonempty and the netloc ends with vatican.va.
   The scheme and netloc extraction of urlparse is embedded below. -/

/-- The characters urlparse allows in a scheme after the leading
letter. -/
def schemeChar (c : Char) : Bool :=
  c.isAlphanum || c = '+' || c = '-' || c = '.'

/-- The scheme/rest split urlparse performs: a valid scheme prefix before
a colon is split off and lower-cased, anything else leaves the scheme
empty. -/
def splitScheme (cs : List Char) : List Char × List Char :=
  match cs.findIdx? (fun c => c = ':') with
  | none => ([], cs)
  | some i =>
    if decide (0 < i) &&
        (match cs.head? with | some c0 => c0.isAlpha | none => false) &&
        (cs.take i).all schemeChar then
      ((cs.take i).map Char.toLower, cs.drop (i + 1))
    else ([], cs)

/-- The netloc urlparse extracts: after a leading double slash, the
characters before the first slash, question mark or hash. -/
def splitNetloc (cs : List Char) : List Char × List Char :=
  if cs.take 2 = ['/', '/'] then
    let rest := cs.drop 2
    let netloc := rest.takeWhile fun c => !(c = '/' || c = '?' || c = '#')
    (netloc, rest.drop netloc.length)
  else ([], cs)

/-- Embeds utils.is_valid_url: scheme and netloc are both nonempty and
the netloc ends with vatican.va. -/
def is_valid_url (url : String) : Bool :=
  let s := splitScheme url.toList
  let n := splitNetloc s.2
  !s.1.isEmpty && !n.1.isEmpty && "vatican.va".toList.isSuffixOf n.1

/-- Embeds main._carregar_urls_iniciais, from the file lines on: strip
every line, drop the empty ones, keep only the valid urls. -/
def carregar_urls_iniciais (lines : List String) : List String :=
  (((lines.map pyStrip).filter fun l => l ≠ "").filter fun url =>
    is_valid_url url)

/- ===================== concrete fixtures ===================== -/

/-- Empty stores, the state before any document is processed. -/
def stores0 : Stores := ⟨[], [], [], [], []⟩

/-- The seed locator of the end-to-end scenario of the spec. -/
def urlEx : String := "https://example.vatican.va/doc1.html"

/-- An environment of deterministic stub collaborators: the fetch yields
nonempty bytes and the converter a 120-character text that passes the
quality gate. -/
def envBase : Env :=
  { baixar := fun _ => some [104, 105]
    converter := fun _ _ => String.mk (List.replicate 120 'a') }

/-- Like envBase, but the converter yields a text below the 100-character
quality gate. -/
def envShort : Env := { envBase with converter := fun _ _ => "curto" }

/-- Three stored vector entries with known scores under simEx. -/
def filesEx : List (String × List ℚ) := [("d1", [5]), ("d2", [9]), ("d3", [2])]

/-- A deterministic stub sentence encoder. -/
def encodeEx : String → List ℚ := fun _ => [1]

/-- A deterministic stub similarity: the head coordinate of the stored
vector. -/
def simEx : List ℚ → List ℚ → ℚ := fun _ v => v.headI

/- ===================== helper lemmas ===================== -/

theorem mem_insertSet_self (x : String) (l : List String) :
    x ∈ insertSet x l := by
  unfold insertSet
  split
  case isTrue h => exact h
  case isFalse _ => exact List.mem_cons_self x l

theorem length_flatMap_hex (bs : List Nat) :
    (bs.flatMap byteToHexChars).length = 2 * bs.length := by
  induction bs with
  | nil => rfl
  | cons b bs ih =>
    simp only [List.flatMap_cons, List.length_append, ih, byteToHexChars,
      List.length_cons, List.length_nil]
    omega

theorem md5DigestBytes_length (msg : List Nat) :
    (md5DigestBytes msg).length = 16 := by
  unfold md5DigestBytes
  rcases (chunks64 (md5Pad msg)).foldl md5ProcessBlock
    (0x67452301, 0xefcdab89, 0x98badcfe, 0x10325476) with ⟨a, b, c, d⟩
  simp [leBytes4]

theorem jsonStrings_map_str (l : List String) :
    jsonStrings (JValue.arr (l.map JValue.str)) = l := by
  induction l with
  | nil => rfl
  | cons x xs ih =>
    simp only [jsonStrings] at ih ⊢
    simp only [List.map_cons, List.filterMap_cons]
    exact congrArg (List.cons x) ih

theorem zmax_foldl_spec (es : List (String × Int)) (e0 : String × Int) :
    (es.foldl (fun best p => if zBelow best p then p else best) e0 = e0 ∨
      es.foldl (fun best p => if zBelow best p then p else best) e0 ∈ es) ∧
    e0.2 ≤ (es.foldl (fun best p => if zBelow best p then p else best) e0).2 ∧
    ∀ p ∈ es, p.2 ≤ (es.foldl (fun best p => if zBelow best p then p else best) e0).2 := by
  induction es generalizing e0 with
  | nil => simp
  | cons q qs ih =>
    simp only [List.foldl_cons]
    obtain ⟨hmem, hge, hall⟩ := ih (if zBelow e0 q then q else e0)
    have h0 : e0.2 ≤ (if zBelow e0 q then q else e0).2 := by
      split
      case isTrue h =>
        rcases h with h | ⟨h, _⟩
        · exact le_of_lt h
        · exact le_of_eq h
      case isFalse _ => exact le_refl _
    have hq : q.2 ≤ (if zBelow e0 q then q else e0).2 := by
      split
      case isTrue _ => exact le_refl _
      case isFalse h =>
        unfold zBelow at h
        push_neg at h
        exact h.1
    refine ⟨?_, le_trans h0 hge, ?_⟩
    · rcases hmem with hmem | hmem
      · rw [hmem]
        split
        case isTrue _ => exact Or.inr (List.mem_cons_self _ _)
        case isFalse _ => exact Or.inl rfl
      · exact Or.inr (List.mem_cons_of_mem _ hmem)
    · intro p hp
      rcases List.mem_cons.mp hp with rfl | hp
      · exact le_trans hq hge
      · exact hall p hp

theorem zmaxEntry_spec (q : List (String × Int)) (e : String × Int)
    (h : zmaxEntry q = some e) :
    e ∈ q ∧ ∀ p ∈ q, p.2 ≤ e.2 := by
  cases q with
  | nil => cases h
  | cons x xs =>
    simp only [zmaxEntry, Option.some.injEq] at h
    obtain ⟨hmem, hge, hall⟩ := zmax_foldl_spec xs x
    subst h
    constructor
    · rcases hmem with h1 | h1
      · rw [h1]; exact List.mem_cons_self _ _
      · exact List.mem_cons_of_mem _ h1
    · intro p hp
      rcases List.mem_cons.mp hp with rfl | hp
      · exact hge
      · exact hall p hp

/- ===================== the claims ===================== -/

/-- Claim C7: gerar_nome_arquivo_hash is a pure total function on
strings: every evaluation on the same locator yields the same digest,
and the digest always has the fixed size of 32 hex characters. -/
theorem C7_fingerprint_pure_total (url : String) :
    (gerar_nome_arquivo_hash url).length = 32 ∧
    ∀ url2 : String, url2 = url →
      gerar_nome_arquivo_hash url2 = gerar_nome_arquivo_hash url := by
  constructor
  · unfold gerar_nome_arquivo_hash hexdigest
    show ((md5DigestBytes (utf8Bytes url)).flatMap byteToHexChars).length = 32
    rw [length_flatMap_hex, md5DigestBytes_length]
  · intro url2 h
    rw [h]

/-- Witness for C7 at the seed locator of the spec. -/
theorem C7_fingerprint_pure_total_witness :
    (gerar_nome_arquivo_hash urlEx).length = 32 ∧
    gerar_nome_arquivo_hash urlEx = gerar_nome_arquivo_hash urlEx :=
  ⟨(C7_fingerprint_pure_total urlEx).1,
   (C7_fingerprint_pure_total urlEx).2 urlEx rfl⟩

/-- Claim C3: after adicionar_url_processada succeeds, a fresh
CheckpointManager loaded from the written file reports the url as
processed: the save and load of the checkpoint set round-trip
membership. -/
theorem C3_checkpoint_roundtrip (fs : CPFile) (cm : CheckpointManager)
    (url ts : String) :
    url_ja_processada
      (CheckpointManager.init (adicionar_url_processada true cm fs url ts).2)
      url = true := by
  simp only [adicionar_url_processada, salvar_checkpoint, salvar_json,
    if_pos, CheckpointManager.init, carregar_checkpoint, carregar_json,
    dictGet, List.lookup, url_ja_processada]
  simp [jsonStrings_map_str, mem_insertSet_self]

/-- Claim C8: with the checkpoint file absent or unreadable, the
CheckpointManager starts with the empty set and url_ja_processada is
false everywhere. -/
theorem C8_fails_open (fs : CPFile) (url : String)
    (h : fs = CPFile.absent ∨ fs = CPFile.corrupt) :
    (CheckpointManager.init fs).processed_urls = [] ∧
    url_ja_processada (CheckpointManager.init fs) url = false := by
  rcases h with rfl | rfl <;>
    simp [CheckpointManager.init, carregar_checkpoint, carregar_json,
      dictGet, jsonStrings, url_ja_processada, List.lookup]

/-- Witness for C8 at a corrupted checkpoint file. -/
theorem C8_fails_open_witness :
    (CheckpointManager.init CPFile.corrupt).processed_urls = [] ∧
    url_ja_processada (CheckpointManager.init CPFile.corrupt) urlEx = false :=
  C8_fails_open CPFile.corrupt urlEx (Or.inr rfl)

/-- Counterexample to claim C9 as stated: when langdetect yields a code
outside the configured interest list, detectar_idioma returns the
literal string desconhecido, which is neither a configured language code
nor the literal unknown named by the claim. -/
theorem C9_counterexample :
    detectar_idioma (fun _ => Except.ok "de") "ein Text in deutscher Sprache"
      = "desconhecido" ∧
    ¬("desconhecido" ∈ Config.LANGUAGES) ∧
    "desconhecido" ≠ "unknown" := by
  refine ⟨by decide, by decide, by decide⟩

/-- Claim C9 as amended: detectar_idioma returns either a language code
from Config.LANGUAGES or the literal fallback string desconhecido. -/
theorem C9_amended (detect : String → Except Unit String) (texto : String) :
    detectar_idioma detect texto ∈ Config.LANGUAGES ∨
    detectar_idioma detect texto = "desconhecido" := by
  unfold detectar_idioma
  cases detect (pySlice texto 500) with
  | error e => exact Or.inr rfl
  | ok lang =>
    show (if lang ∈ Config.LANGUAGES then lang else "desconhecido") ∈
        Config.LANGUAGES ∨
      (if lang ∈ Config.LANGUAGES then lang else "desconhecido") = "desconhecido"
    by_cases h : lang ∈ Config.LANGUAGES
    · rw [if_pos h]
      exact Or.inl h
    · rw [if_neg h]
      exact Or.inr rfl

/-- Claim C2: the batch entry point cannot succeed, because the crawler
module leaves the free names nlp (used by both pipeline functions) and
datetime (used by processar_documento) unbound: neither the import
statements nor the module namespace nor the builtins resolve them, so
iniciar_coleta_em_lote raises NameError before processing anything. -/
theorem C2_batch_raises_name_error :
    unresolvedNames iniciarColetaGlobalRefs = ["nlp"] ∧
    unresolvedNames processarDocumentoGlobalRefs = ["datetime", "nlp"] := by
  decide

/-- Claim C5: obter_proximo_documento returns the empty result on an
empty queue; on a nonempty queue it removes and returns the entry of
highest priority; and the concrete scenario with priorities 3, 1, 5
dequeues in order 5, 3, 1. -/
theorem C5_dequeue_highest :
    obter_proximo_documento [] = (none, []) ∧
    (∀ (q : List (String × Int)) (e : String × Int), zmaxEntry q = some e →
      e ∈ q ∧ (∀ p ∈ q, p.2 ≤ e.2) ∧
      obter_proximo_documento q = (some e.1, q.erase e) ∧
      (q.erase e).length + 1 = q.length) ∧
    (let s3 := (adicionar_documento ((adicionar_documento
        ((adicionar_documento [] "u1" 3).2) "u2" 1).2) "u3" 5).2
     let d1 := obter_proximo_documento s3
     let d2 := obter_proximo_documento d1.2
     let d3 := obter_proximo_documento d2.2
     let d4 := obter_proximo_documento d3.2
     d1.1 = some "u3" ∧ d2.1 = some "u1" ∧ d3.1 = some "u2" ∧
       d4.1 = none ∧ d4.2 = []) := by
  refine ⟨rfl, ?_, by decide⟩
  intro q e h
  obtain ⟨hm, ha⟩ := zmaxEntry_spec q e h
  refine ⟨hm, ha, ?_, ?_⟩
  · unfold obter_proximo_documento
    rw [h]
  · have h1 := List.length_erase_of_mem hm
    have h2 : 0 < q.length := List.length_pos.mpr (List.ne_nil_of_mem hm)
    omega

/-- Witness for C5 on a concrete two-entry queue. -/
theorem C5_dequeue_highest_witness :
    ("b", (7 : Int)) ∈ [("a", (2 : Int)), ("b", (7 : Int))] ∧
    (∀ p ∈ [("a", (2 : Int)), ("b", (7 : Int))],
      p.2 ≤ (("b", (7 : Int)) : String × Int).2) ∧
    obter_proximo_documento [("a", (2 : Int)), ("b", (7 : Int))] =
      (some "b", List.erase [("a", (2 : Int)), ("b", (7 : Int))] ("b", 7)) ∧
    (List.erase [("a", (2 : Int)), ("b", (7 : Int))] ("b", 7)).length + 1
      = 2 :=
  C5_dequeue_highest.2.1 [("a", 2), ("b", 7)] ("b", 7) (by decide)

/-- Claim C6: buscar returns the empty sequence on an empty entry set,
and otherwise the top_k entries of highest similarity score in
descending order: its output is the length-top_k prefix of the
descending stable sort of all scored entries, it is sorted descending,
together with the dropped entries it is a permutation of all scored
entries, and every dropped score is at most every returned score. -/
theorem C6_search_top_k (encode : String → List ℚ)
    (cos_sim : List ℚ → List ℚ → ℚ) (files : List (String × List ℚ))
    (query : String) (top_k : Nat) :
    buscar encode cos_sim [] query top_k = [] ∧
    buscar encode cos_sim files query top_k =
      ((scoresOf cos_sim (encode query) files).insertionSort descBy).take top_k ∧
    List.Sorted descBy (buscar encode cos_sim files query top_k) ∧
    (buscar encode cos_sim files query top_k ++
      ((scoresOf cos_sim (encode query) files).insertionSort descBy).drop top_k).Perm
      (scoresOf cos_sim (encode query) files) ∧
    (∀ a ∈ buscar encode cos_sim files query top_k,
      ∀ b ∈ ((scoresOf cos_sim (encode query) files).insertionSort descBy).drop top_k,
        b.2 ≤ a.2) := by
  have heq : buscar encode cos_sim files query top_k =
      ((scoresOf cos_sim (encode query) files).insertionSort descBy).take top_k := by
    cases files with
    | nil => simp [buscar, scoresOf]
    | cons f fs => simp [buscar]
  have hsorted :=
    List.sorted_insertionSort descBy (scoresOf cos_sim (encode query) files)
  refine ⟨by simp [buscar], heq, ?_, ?_, ?_⟩
  · rw [heq]
    exact List.Pairwise.sublist (List.take_sublist _ _) hsorted
  · rw [heq, List.take_append_drop]
    exact List.perm_insertionSort descBy _
  · rw [heq]
    have hp : List.Pairwise descBy
        (((scoresOf cos_sim (encode query) files).insertionSort descBy).take top_k ++
         ((scoresOf cos_sim (encode query) files).insertionSort descBy).drop top_k) := by
      rw [List.take_append_drop]
      exact hsorted
    exact fun a ha b hb => (List.pairwise_append.mp hp).2.2 a ha b hb

/-- Witness for C6: three stored vectors with scores 5, 9, 2; the top two
ids come back in descending score order and dominate the dropped one. -/
theorem C6_search_top_k_witness :
    buscar encodeEx simEx filesEx "q" 2 = [("d2", (9 : ℚ)), ("d1", (5 : ℚ))] ∧
    ((2 : ℚ) ≤ (9 : ℚ)) := by
  constructor
  · decide
  · exact (C6_search_top_k encodeEx simEx filesEx "q" 2).2.2.2.2
      ("d2", 9) (by decide) ("d3", 2) (by decide)

/-- Claim C10: a seed line is accepted exactly when its stripped form is
nonempty and is_valid_url holds of it, and a valid url necessarily has a
nonempty scheme, a nonempty netloc, and a netloc ending in vatican.va,
so no out-of-domain locator reaches the batch pipeline. -/
theorem C10_seed_domain_filter (lines : List String) (url : String) :
    (url ∈ carregar_urls_iniciais lines ↔
      url ∈ (lines.map pyStrip).filter (fun l => l ≠ "") ∧
        is_valid_url url = true) ∧
    (is_valid_url url = true →
      (splitScheme url.toList).1.isEmpty = false ∧
      (splitNetloc (splitScheme url.toList).2).1.isEmpty = false ∧
      "vatican.va".toList.isSuffixOf
        (splitNetloc (splitScheme url.toList).2).1 = true) := by
  constructor
  · unfold carregar_urls_iniciais
    rw [List.mem_filter]
  · intro hv
    unfold is_valid_url at hv
    simp only [Bool.and_eq_true, Bool.not_eq_true'] at hv
    exact ⟨hv.1.1, hv.1.2, hv.2⟩

/-- Witness for C10: the seed locator of the spec passes the filter and
its netloc ends in vatican.va; an off-domain line is dropped. -/
theorem C10_seed_domain_filter_witness :
    urlEx ∈ carregar_urls_iniciais [urlEx, " ", "junk", "http://evil.com/x"] ∧
    "vatican.va".toList.isSuffixOf
      (splitNetloc (splitScheme urlEx.toList).2).1 = true ∧
    ¬("http://evil.com/x" ∈
      carregar_urls_iniciais [urlEx, " ", "junk", "http://evil.com/x"]) := by
  refine ⟨?_, ?_, ?_⟩
  · exact (C10_seed_domain_filter [urlEx, " ", "junk", "http://evil.com/x"]
      urlEx).1.mpr ⟨by decide, by decide⟩
  · exact ((C10_seed_domain_filter [] urlEx).2 (by decide)).2.2
  · intro hmem
    have h := (C10_seed_domain_filter [urlEx, " ", "junk", "http://evil.com/x"]
      "http://evil.com/x").1.mp hmem
    revert h
    decide

/-- Claim C4: a fetched document whose extracted text is empty or below
the 100-character minimum makes processar_documento return the failure
result with every store, and the checkpoint, exactly as before. -/
theorem C4_quality_gate (env : Env) (st : Stores) (url : String)
    (conteudo : List Nat)
    (hb : env.baixar url = some conteudo)
    (hne : conteudo.isEmpty = false)
    (hshort : env.converter conteudo url = "" ∨
      (env.converter conteudo url).length < 100) :
    processar_documento env st url = .ok (none, st) := by
  unfold processar_documento
  split
  case isTrue _ => rfl
  case isFalse _ =>
    simp only [hb, hne, Bool.false_eq_true, if_false]
    rw [if_pos hshort]

/-- Witness for C4: a five-character extraction is rejected with the
stores untouched. -/
theorem C4_quality_gate_witness :
    processar_documento envShort stores0 urlEx = .ok (none, stores0) :=
  C4_quality_gate envShort stores0 urlEx [104, 105] rfl rfl
    (Or.inr (by decide))

/-- Paths of processar_documento as written: every run either returns
the failure result with the stores unchanged or raises with the stores
unchanged. -/
theorem processar_documento_cases (env : Env) (st : Stores) (url : String) :
    processar_documento env st url = .ok (none, st) ∨
    processar_documento env st url = .error st := by
  unfold processar_documento
  split
  · exact Or.inl rfl
  · split
    · exact Or.inl rfl
    · split
      · exact Or.inl rfl
      · dsimp only
        split
        · exact Or.inl rfl
        · exact Or.inr rfl

/-- Claim C1: the checkpoint is marked with the locator only after all
four artifacts have been fully and successfully persisted, and never
when a persist step fails.  This holds of the code as written, but
vacuously: the metadata dict raises NameError on the unbound name
datetime before any persist step, so every run leaves all four artifact
stores and the checkpoint exactly unchanged and never reports success —
in particular the checkpoint is never marked before the artifacts
persist, nor after a failed persist. -/
theorem C1_mark_only_after_persist (env : Env) (st : Stores) (url : String) :
    runStores (processar_documento env st url) = st ∧
    runResult (processar_documento env st url) = none ∧
    ((url ∈ (runStores (processar_documento env st url)).checkpoint) ↔
      url ∈ st.checkpoint) := by
  rcases processar_documento_cases env st url with h | h <;>
    simp [h, runStores, runResult]
